import Mathlib

/-
Shallow embedding of the hydrogen-skeleton-shadcn storefront routes.

URL search parameters (`URLSearchParams`) and form data (`FormData`) are
modelled as ordered association lists of string pairs; duplicate keys are
allowed, matching the browser APIs.  JavaScript `null`/`undefined` string
values are modelled with `Option String`, and JS string truthiness
(`!s` is true exactly for the empty string) is made explicit at each use.
-/

namespace Storefront

/-- Ordered multimap of query-string (or form-data) entries. -/
abbrev Params := List (String × String)

/-- Model of `URLSearchParams.get` / `FormData.get`: the first value stored
under the key, or `none` (JS `null`) when the key is absent. -/
def firstValue (key : String) (ps : Params) : Option String :=
  (ps.find? (fun e => e.1 == key)).map (fun e => e.2)

/-- Model of `URLSearchParams.getAll`: every value stored under the key, in
order. -/
def getAllValues (key : String) (ps : Params) : List String :=
  (ps.filter (fun e => e.1 == key)).map (fun e => e.2)

/-- Model of `URLSearchParams.delete`: removes every entry under the key,
leaving the other entries in place. -/
def deleteKey (key : String) (ps : Params) : Params :=
  ps.filter (fun e => e.1 != key)

/-- Model of `URLSearchParams.append`: adds an entry at the end. -/
def appendParam (key value : String) (ps : Params) : Params :=
  ps ++ [(key, value)]

/-- Model of `URLSearchParams.set`: replaces the first entry stored under the
key in place, drops the remaining ones, and appends at the end when the key is
absent. -/
def setParam (key value : String) : Params → Params
  | [] => [(key, value)]
  | (k, v) :: rest =>
    if k == key then (key, value) :: rest.filter (fun e => e.1 != key)
    else (k, v) :: setParam key value rest

/-- Model of `URLSearchParams.toString`; percent-encoding is left out, the
claims under study only concern which entries are present. -/
def serializeParams (ps : Params) : String :=
  String.intercalate "&" (ps.map (fun e => e.1 ++ "=" ++ e.2))

/-- Helper for `strContains`: does `sub` occur as a contiguous segment of the
second list? -/
def segOccurs (sub : List Char) : List Char → Bool
  | [] => sub.isEmpty
  | c :: rest => sub.isPrefixOf (c :: rest) || segOccurs sub rest

/-- Model of JavaScript `String.prototype.includes`: substring containment. -/
def strContains (s sub : String) : Bool :=
  segOccurs sub.data s.data

/-- Coercion a JS `String(x)` applies to a possibly-`null` value. -/
def jsString : Option String → String
  | some s => s
  | none => "null"

/-! ## Sort-parameter decoding (collections route, `getSortValuesFromParam`) -/

/-- Storefront-API product collection sort keys (the values this repository
uses). -/
inductive ProductCollectionSortKeys where
  | PRICE
  | BEST_SELLING
  | CREATED
  | MANUAL
  | RELEVANCE
deriving DecidableEq, Repr

/-- Result shape of `getSortValuesFromParam`. -/
structure SortValues where
  sortKey : ProductCollectionSortKeys
  reverse : Bool
deriving DecidableEq, Repr

/-- Embedding of `getSortValuesFromParam` from the collections route: the
argument is `searchParams.get('sort')`, `none` standing for JS `null` when the
parameter is absent; the `switch` falls through to `RELEVANCE`. -/
def getSortValuesFromParam (sortParam : Option String) : SortValues :=
  match sortParam with
  | none => ⟨.RELEVANCE, false⟩
  | some s =>
    if s == "price-high-low" then ⟨.PRICE, true⟩
    else if s == "price-low-high" then ⟨.PRICE, false⟩
    else if s == "best-selling" then ⟨.BEST_SELLING, false⟩
    else if s == "newest" then ⟨.CREATED, true⟩
    else if s == "featured" then ⟨.MANUAL, false⟩
    else ⟨.RELEVANCE, false⟩

/-! ## SortFilter component helpers -/

/-- An applied filter's `urlParam` field. -/
structure UrlParam where
  key : String
  value : String
deriving DecidableEq, Repr

/-- The `AppliedFilter` type of `SortFilter.tsx`.  The label is optional
because the collections loader can push an `undefined` label at runtime (a
`variantOption` value without a `:`). -/
structure AppliedFilter where
  label : Option String
  urlParam : UrlParam
deriving DecidableEq, Repr

/-- Embedding of `getAppliedFilterLink` restricted to its query-string part:
for the `variantOption` key the surviving values (those not containing the
removed filter's value as a substring) are re-appended after deleting the key;
for any other key every entry under the key is deleted. -/
def getAppliedFilterParams (filter : AppliedFilter) (params : Params) : Params :=
  if filter.urlParam.key == "variantOption" then
    let variantOptions := getAllValues "variantOption" params
    let filteredVariantOptions :=
      variantOptions.filter (fun options => !(strContains options filter.urlParam.value))
    let params1 := deleteKey filter.urlParam.key params
    filteredVariantOptions.foldl
      (fun acc v => appendParam filter.urlParam.key v acc) params1
  else
    deleteKey filter.urlParam.key params

/-- Embedding of `getAppliedFilterLink`, serialized form. -/
def getAppliedFilterLink (filter : AppliedFilter) (params : Params)
    (pathname : String) : String :=
  pathname ++ "?" ++ serializeParams (getAppliedFilterParams filter params)

/-- A value of one entry of a parsed `LIST` filter input object. -/
inductive ListValue where
  | str (s : String)
  | boolean (b : Bool)
  | variantOpt (name value : String)
deriving DecidableEq, Repr

/-- The parsed `PRICE_RANGE` filter input (`{price: {min?, max?}}`); the
min/max components are kept as the strings the price-range form produces. -/
structure PriceInput where
  min : Option String
  max : Option String
deriving DecidableEq, Repr

/-- A parsed filter input together with the filter type it is dispatched on:
`list` for `LIST` filters (an object traversed by `Object.entries`), `price`
for `PRICE_RANGE` filters. -/
inductive FilterInput where
  | list (entries : List (String × ListValue))
  | price (p : PriceInput)
deriving DecidableEq, Repr

/-- Embedding of `filterInputToParams` from `SortFilter.tsx`.  JS string
truthiness on `input.price.min` / `input.price.max` means an empty (or absent)
component is skipped. -/
def filterInputToParams (input : FilterInput) (params : Params) : Params :=
  match input with
  | .price p =>
    let params1 :=
      match p.min with
      | some m => if m == "" then params else setParam "minPrice" m params
      | none => params
    match p.max with
    | some m => if m == "" then params1 else setParam "maxPrice" m params1
    | none => params1
  | .list entries =>
    entries.foldl
      (fun ps e =>
        match e.2 with
        | .str v => setParam e.1 v ps
        | .boolean b => setParam e.1 (if b then "true" else "false") ps
        | .variantOpt name val =>
          let allVariants := getAllValues "variantOption" ps
          let newVariant := name ++ ":" ++ val
          if allVariants.contains newVariant then ps
          else appendParam "variantOption" newVariant ps)
      params

/-! ## Session and customer access token -/

/-- The storefront customer access token as stored in the session cookie:
both fields arrive as strings from the API. -/
structure CustomerAccessToken where
  accessToken : String
  expiresAt : String
deriving DecidableEq, Repr

/-- The session, restricted to the only key these routes ever read or write:
`'customerAccessToken'`.  `none` means the key is unset. -/
abbrev Session := Option CustomerAccessToken

/-- A `customerUserErrors` element of a storefront mutation payload. -/
structure CustomerUserError where
  message : String
deriving DecidableEq, Repr

/-! ## Access-token validation (`validateCustomerAccessToken`, root.tsx) -/

/-- Result of `validateCustomerAccessToken`: the flag, the headers (at most
one `Set-Cookie`, modelled as the session state that was committed into it),
and the session after the call. -/
structure ValidateOutcome where
  isLoggedIn : Bool
  setCookie : Option Session
  session : Session
deriving DecidableEq, Repr

/-- Model of JS `new Date(s).getTime()` followed by `<`: an unparseable date
is `NaN`, and `NaN < x` is false, so only a successfully parsed time can
compare as earlier. -/
def timeEarlier (parsed : Option Int) (now : Int) : Bool :=
  match parsed with
  | some t => decide (t < now)
  | none => false

/-- Embedding of `validateCustomerAccessToken` (root.tsx).  `parseTime`
models `new Date(·).getTime()` (`none` = `NaN`) and `now` models
`Date.now()`.  An absent token, an empty `accessToken`, or an empty
`expiresAt` short-circuits to not logged in; an expired token is unset from
the session and the removal is committed into a `Set-Cookie` header. -/
def validateCustomerAccessToken (parseTime : String → Option Int) (now : Int)
    (session : Session) (customerAccessToken : Option CustomerAccessToken) :
    ValidateOutcome :=
  match customerAccessToken with
  | none => ⟨false, none, session⟩
  | some tok =>
    if tok.accessToken == "" || tok.expiresAt == "" then ⟨false, none, session⟩
    else
      let customerAccessTokenExpired := timeEarlier (parseTime tok.expiresAt) now
      if customerAccessTokenExpired then
        let session' : Session := none
        ⟨false, some session', session'⟩
      else ⟨true, none, session⟩

/-! ## Deferred data (remix `defer`) -/

/-- A value returned from a loader: either awaited before the response was
sent, or a still-pending promise (carrying what it will later resolve to)
streamed to the client. -/
inductive Streamed (α : Type) where
  | awaited (a : α)
  | deferred (eventual : α)
deriving DecidableEq, Repr

/-! ## Root loader (root.tsx) -/

/-- Shape of the root loader's `defer` payload plus its response headers.
The cart, footer and header query-result types are opaque external data. -/
structure RootLoaderResult (κ φ η : Type) where
  cart : Streamed κ
  footer : Streamed φ
  header : Streamed η
  isLoggedIn : Bool
  publicStoreDomain : String
  setCookie : Option Session
  session : Session

/-- Embedding of the root loader: the session token is validated, the cart
and footer queries are started but not awaited, the header query is awaited,
and the validator's headers are attached to the deferred response. -/
def rootLoader {κ φ η : Type} (parseTime : String → Option Int) (now : Int)
    (session : Session) (publicStoreDomain : String)
    (cartResult : κ) (footerResult : φ) (headerResult : η) :
    RootLoaderResult κ φ η :=
  let customerAccessToken := session
  let v := validateCustomerAccessToken parseTime now session customerAccessToken
  { cart := .deferred cartResult
    footer := .deferred footerResult
    header := .awaited headerResult
    isLoggedIn := v.isLoggedIn
    publicStoreDomain := publicStoreDomain
    setCookie := v.setCookie
    session := v.session }

/-! ## Collections route loader -/

/-- One element of the `filters` array the collections loader sends to the
storefront API. -/
inductive ProductFilter where
  | available (b : Bool)
  | known (key value : String)
  | variantOpt (name : String) (value : Option String)
  | price (min max : Option Int)
deriving DecidableEq, Repr

/-- Embedding of the collections loader's search-parameter walk building the
`filters` and `appliedFilters` arrays.  `parseNum` models `Number(·) || 0`
(`none` = `NaN`, collapsed to `0` by `|| 0`; `Number('') = 0` likewise ends
at `0`).  A `variantOption` value without a `:` yields an `undefined` second
component from the destructured `split(':')`. -/
def collectionFilters (parseNum : String → Option Int) (searchParams : Params) :
    List ProductFilter × List AppliedFilter :=
  let knownFilters := ["productVendor", "productType"]
  let step := fun (acc : List ProductFilter × List AppliedFilter)
      (e : String × String) =>
    let (key, value) := e
    if key == "available" then
      (acc.1 ++ [.available (value == "true")],
       acc.2 ++ [⟨some (if value == "true" then "In stock" else "Out of stock"),
                  ⟨"available", value⟩⟩])
    else if knownFilters.contains key then
      (acc.1 ++ [.known key value], acc.2 ++ [⟨some value, ⟨key, value⟩⟩])
    else if strContains key "variantOption" then
      let parts := value.splitOn ":"
      let name := (parts.get? 0).getD ""
      let val := parts.get? 1
      (acc.1 ++ [.variantOpt name val], acc.2 ++ [⟨val, ⟨key, value⟩⟩])
    else acc
  let base := searchParams.foldl step ([], [])
  if (firstValue "minPrice" searchParams).isSome
      || (firstValue "maxPrice" searchParams).isSome then
    let min := (firstValue "minPrice" searchParams).map
      (fun s => (parseNum s).getD 0)
    let max := (firstValue "maxPrice" searchParams).map
      (fun s => (parseNum s).getD 0)
    let afMin : List AppliedFilter :=
      match firstValue "minPrice" searchParams, min with
      | some raw, some n => [⟨some ("Min: $" ++ toString n), ⟨"minPrice", raw⟩⟩]
      | _, _ => []
    let afMax : List AppliedFilter :=
      match firstValue "maxPrice" searchParams, max with
      | some raw, some n => [⟨some ("Max: $" ++ toString n), ⟨"maxPrice", raw⟩⟩]
      | _, _ => []
    (base.1 ++ [.price min max], base.2 ++ afMin ++ afMax)
  else base

/-- Result of the collections route loader; the collection query-result type
is opaque external data. -/
inductive CollectionLoaderResult (γ : Type) where
  | redirectCollections
  | notFound (message : String) (status : Nat)
  | ok (collection : γ) (appliedFilters : List AppliedFilter)
deriving DecidableEq, Repr

/-- Embedding of the collections route loader: a missing (or empty, JS-falsy)
handle redirects to `/collections`; a `null` collection in the query result
is thrown as a 404 `Response`; otherwise the collection and the applied
filters are returned. -/
def collectionLoader {γ : Type} (parseNum : String → Option Int)
    (handle : Option String) (searchParams : Params)
    (queryResult : Option γ) : CollectionLoaderResult γ :=
  let h := handle.getD ""
  if h == "" then .redirectCollections
  else
    let appliedFilters := (collectionFilters parseNum searchParams).2
    match queryResult with
    | none => .notFound ("Collection " ++ h ++ " not found") 404
    | some collection => .ok collection appliedFilters

/-! ## Product route loader -/

/-- A product option selection (`{name, value}`). -/
structure SelectedOption where
  name : String
  value : String
deriving DecidableEq, Repr

/-- A product variant as used by the product loader. -/
structure Variant where
  id : String
  selectedOptions : List SelectedOption
deriving DecidableEq, Repr

/-- The critical product query result, restricted to the fields the loader
inspects (`variants.nodes` is flattened into a plain list). -/
structure Product where
  id : String
  handle : String
  variants : List Variant
  selectedVariant : Option Variant
deriving DecidableEq, Repr

/-- Embedding of `getSelectedProductOptions` plus the loader's filter that
drops Shopify predictive-search query parameters. -/
def selectedProductOptions (searchParams : Params) : List SelectedOption :=
  (searchParams.map (fun e => SelectedOption.mk e.1 e.2)).filter
    (fun option =>
      !("_sid".isPrefixOf option.name) && !("_pos".isPrefixOf option.name)
        && !("_psq".isPrefixOf option.name) && !("_ss".isPrefixOf option.name)
        && !("_v".isPrefixOf option.name))

/-- The product loader's `defer` payload: the awaited product (with
`selectedVariant` possibly filled in) and the deferred variants query. -/
structure ProductPayload (ν : Type) where
  product : Streamed Product
  variants : Streamed ν

/-- Result of the product route loader. -/
inductive ProductLoaderResult (ν : Type) where
  | errorThrown (message : String)
  | notFound
  | redirectFirstVariant (handle : String) (selectedOptions : List SelectedOption)
      (searchParams : Params)
  | ok (payload : ProductPayload ν)

/-- Embedding of the product route loader: a missing handle throws; the
critical product query is awaited and a missing product (or empty id, both
JS-falsy under `!product?.id`) is thrown as a 404 `Response`; the variants
query is started but never awaited; an empty variants list crashes the
`firstVariant.selectedOptions` access; a non-default first variant with no
selected variant redirects to the first variant's URL. -/
def productLoader {ν : Type} (handle : Option String)
    (productResult : Option Product) (variantsResult : ν)
    (searchParams : Params) : ProductLoaderResult ν :=
  if handle.getD "" == "" then .errorThrown "Expected product handle to be defined"
  else
    match productResult with
    | none => .notFound
    | some product =>
      if product.id == "" then .notFound
      else
        match product.variants.head? with
        | none =>
          .errorThrown "Cannot read properties of undefined (reading 'selectedOptions')"
        | some firstVariant =>
          if firstVariant.selectedOptions.any
              (fun option => option.name == "Title"
                && option.value == "Default Title") then
            .ok ⟨.awaited { product with selectedVariant := some firstVariant },
                 .deferred variantsResult⟩
          else
            match product.selectedVariant with
            | none =>
              .redirectFirstVariant product.handle firstVariant.selectedOptions
                searchParams
            | some _ => .ok ⟨.awaited product, .deferred variantsResult⟩

/-! ## Blog route loader -/

/-- The blog query result, restricted to what the loader inspects: the
articles connection is opaque external data and optional because the loader
guards `!blog?.articles`. -/
structure Blog (α : Type) where
  title : String
  articles : Option α
deriving DecidableEq, Repr

/-- Result of the blog route loader. -/
inductive BlogLoaderResult (α : Type) where
  | notFound (message : String) (status : Nat)
  | ok (blog : Blog α)
deriving DecidableEq, Repr

/-- Embedding of the blog index route loader: a missing (JS-falsy) blog
handle throws a 404; a `null` blog or missing articles connection throws a
404; otherwise the blog is returned. -/
def blogLoader {α : Type} (blogHandle : Option String)
    (queryResult : Option (Blog α)) : BlogLoaderResult α :=
  if blogHandle.getD "" == "" then .notFound "blog not found" 404
  else
    match queryResult with
    | none => .notFound "Not found" 404
    | some blog =>
      match blog.articles with
      | none => .notFound "Not found" 404
      | some _ => .ok blog

/-! ## Order route loader (account.orders.$id route) -/

/-- A discount-application `value` as the order route inspects it via
`__typename`: the `PricingValue` union of a money value and a percentage
value; the payload types are opaque external data. -/
inductive DiscountValue (μ π : Type) where
  | moneyV2 (money : μ)
  | pricingPercentageValue (percentage : π)
deriving DecidableEq, Repr

/-- A flattened discount application (its non-null `value` field). -/
structure DiscountApplication (μ π : Type) where
  value : DiscountValue μ π
deriving DecidableEq, Repr

/-- The customer-order query result node as the order route inspects it: the
`lineItems` field is optional because the route checks `'lineItems' in order`
(a node that exists but is not an Order lacks the property); the connection
types are opaque external data. -/
structure OrderNode (ℓ δ : Type) where
  lineItems : Option ℓ
  discountApplications : δ

/-- The order loader's `json` payload. -/
structure OrderPayload (ℓ δ ρ μ π : Type) where
  order : OrderNode ℓ δ
  lineItems : List ρ
  discountValue : Option (DiscountValue μ π)
  discountPercentage : Option π

/-- Result of the single-order route loader. -/
inductive OrderLoaderResult (ℓ δ ρ μ π : Type) where
  | redirectOrders
  | redirectLogin
  | notFound (message : String) (status : Nat)
  | ok (payload : OrderPayload ℓ δ ρ μ π)

/-- Embedding of the single-order route loader: a missing (JS-falsy) id
param redirects to `/account/orders`; the id is base64-decoded (`atob`,
modelled as an oracle) into the query variable; a missing session token
redirects to `/account/login`; a `null` order, or a node without the
`lineItems` property, is thrown as a 404 `Response` with message
`Order not found`; otherwise the connections are flattened
(`flattenConnection` is vendor code, modelled as oracles) and the first
discount application's value is split by `__typename` into the money value
and the percentage. -/
def orderLoader {ℓ δ ρ μ π : Type} (atob : String → String)
    (flattenLineItems : ℓ → List ρ)
    (flattenDiscounts : δ → List (DiscountApplication μ π))
    (id : Option String) (session : Session)
    (orderQuery : String → Option (OrderNode ℓ δ)) :
    OrderLoaderResult ℓ δ ρ μ π :=
  if id.getD "" == "" then .redirectOrders
  else
    let orderId := atob (id.getD "")
    match session with
    | none => .redirectLogin
    | some _ =>
      match orderQuery orderId with
      | none => .notFound "Order not found" 404
      | some order =>
        match order.lineItems with
        | none => .notFound "Order not found" 404
        | some li =>
          let lineItems := flattenLineItems li
          let discountApplications := flattenDiscounts order.discountApplications
          let firstDiscount := discountApplications.head?.map
            (fun d => d.value)
          let discountValue :=
            match firstDiscount with
            | some (DiscountValue.moneyV2 m) => some (DiscountValue.moneyV2 m)
            | _ => none
          let discountPercentage :=
            match firstDiscount with
            | some (DiscountValue.pricingPercentageValue p) => some p
            | _ => none
          .ok ⟨order, lineItems, discountValue, discountPercentage⟩

/-! ## Login action (_auth.account_.login.tsx) -/

/-- The `customerAccessTokenCreate` mutation payload. -/
structure TokenCreatePayload where
  customerAccessToken : Option CustomerAccessToken
  customerUserErrors : List CustomerUserError
deriving DecidableEq, Repr

/-- An auth-route action response: a JSON error with a status, or a redirect.
The `setCookie` field models the `Set-Cookie` header as the session state that
was committed into it (`none` when the response carries no such header). -/
inductive AuthResponse where
  | jsonError (message : String) (status : Nat) (setCookie : Option Session)
  | redirectTo (location : String) (setCookie : Option Session)
deriving DecidableEq, Repr

/-- Outcome of an auth-route action: the response, the session after the
action, and whether the storefront mutation was invoked. -/
structure AuthOutcome where
  response : AuthResponse
  session : Session
  mutationInvoked : Bool
deriving DecidableEq, Repr

/-- Message of `new Error(customerUserErrors[0].message)` when the error list
may be empty (`new Error(undefined)` has an empty message). -/
def headErrorMessage (errors : List CustomerUserError) : String :=
  match errors.head? with
  | some e => e.message
  | none => ""

/-- Embedding of the login route action.  `mutationResult` is the
`customerAccessTokenCreate` field of the storefront's reply to the login
mutation (`none` when the field is absent, in which case the JS code's
`customerUserErrors[0]` access on `undefined` throws a `TypeError` that the
route's `catch` turns into a 400). -/
def loginAction (method : String) (form : Params) (session : Session)
    (mutationResult : Option TokenCreatePayload) : AuthOutcome :=
  if method != "POST" then
    ⟨.jsonError "Method not allowed" 405 none, session, false⟩
  else
    let email := (firstValue "email" form).getD ""
    let password := (firstValue "password" form).getD ""
    let validInputs := email != "" && password != ""
    if !validInputs then
      ⟨.jsonError "Please provide both an email and a password." 400 none,
       session, false⟩
    else
      match mutationResult with
      | none =>
        ⟨.jsonError "Cannot read properties of undefined (reading '0')" 400 none,
         session, true⟩
      | some payload =>
        match payload.customerAccessToken with
        | some customerAccessToken =>
          if customerAccessToken.accessToken != "" then
            let session' : Session := some customerAccessToken
            ⟨.redirectTo "/account" (some session'), session', true⟩
          else
            ⟨.jsonError (headErrorMessage payload.customerUserErrors) 400 none,
             session, true⟩
        | none =>
          ⟨.jsonError (headErrorMessage payload.customerUserErrors) 400 none,
           session, true⟩

/-! ## Password-reset action (account_.reset.$id.$resetToken route) -/

/-- The `customerReset` mutation payload. -/
structure ResetPayload where
  customerAccessToken : Option CustomerAccessToken
  customerUserErrors : List CustomerUserError
deriving DecidableEq, Repr

/-- Embedding of the password-reset route action.  `id` and `resetToken` are
the route params; `mutationResult` is the `customerReset` field of the
storefront's reply.  Note the source's validation: `validInputs` is true only
when both fields are non-empty, and the guard is
`validInputs && password !== passwordConfirm`, so a missing or empty field
skips the guard and the mutation is still invoked. -/
def resetAction (method : String) (id resetToken : Option String)
    (form : Params) (session : Session)
    (mutationResult : Option ResetPayload) : AuthOutcome :=
  if method != "POST" then
    ⟨.jsonError "Method not allowed" 405 none, session, false⟩
  else if id.getD "" == "" || resetToken.getD "" == "" then
    ⟨.jsonError "customer token or id not found" 400 none, session, false⟩
  else
    let password := (firstValue "password" form).getD ""
    let passwordConfirm := (firstValue "passwordConfirm" form).getD ""
    let validInputs := password != "" && passwordConfirm != ""
    if validInputs && password != passwordConfirm then
      ⟨.jsonError "Please provide matching passwords" 400 none, session, false⟩
    else
      match mutationResult with
      | none =>
        ⟨.jsonError "Access token not found. Please try again." 400 none,
         session, true⟩
      | some payload =>
        if !payload.customerUserErrors.isEmpty then
          ⟨.jsonError (headErrorMessage payload.customerUserErrors) 400 none,
           session, true⟩
        else
          match payload.customerAccessToken with
          | none =>
            ⟨.jsonError "Access token not found. Please try again." 400 none,
             session, true⟩
          | some tok =>
            let session' : Session := some tok
            ⟨.redirectTo "/account" (some session'), session', true⟩

/-! ## Addresses action (account.addresses route) -/

/-- A `customerAddress` reference in an address mutation payload. -/
structure AddressRef where
  id : String
deriving DecidableEq, Repr

/-- The `customerAddressCreate` / `customerAddressUpdate` mutation payload. -/
structure AddressMutatePayload where
  customerAddress : Option AddressRef
  customerUserErrors : List CustomerUserError
deriving DecidableEq, Repr

/-- The `customerAddressDelete` mutation payload. -/
structure AddressDeletePayload where
  deletedCustomerAddressId : Option String
  customerUserErrors : List CustomerUserError
deriving DecidableEq, Repr

/-- The `customerDefaultAddressUpdate` mutation payload. -/
structure DefaultAddressPayload where
  customerUserErrors : List CustomerUserError
deriving DecidableEq, Repr

/-- A storefront mutation invocation made by the addresses action, with the
variables it was sent. -/
inductive AddressMutation where
  | create (accessToken : String) (address : Params)
  | update (accessToken : String) (address : Params) (id : String)
  | deleteAddr (accessToken : String) (id : String)
  | setDefault (accessToken : String) (addressId : String)
deriving DecidableEq, Repr

/-- An addresses-action response.  `jsonErrorMap` models
`json({error: {[addressId]: message}}, {status})`. -/
inductive AddressesResponse where
  | jsonErrorMap (addressId message : String) (status : Nat)
  | jsonError (message : String) (status : Nat)
  | okCreated (createdAddress : AddressRef) (defaultAddress : Option Bool)
  | okUpdated (updatedAddress : Option AddressRef) (defaultAddress : Option Bool)
  | okDeleted (deletedAddress : String)
deriving DecidableEq, Repr

/-- Outcome of the addresses action: the response, the session after the
action, and the storefront mutations invoked, in order. -/
structure AddressesOutcome where
  response : AddressesResponse
  session : Session
  mutations : List AddressMutation
deriving DecidableEq, Repr

/-- The form keys copied into the `MailingAddressInput`. -/
def addressKeys : List String :=
  ["address1", "address2", "city", "company", "country", "firstName",
   "lastName", "phone", "province", "zip"]

/-- Embedding of the addresses route action.  `decode` models
`decodeURIComponent`; the three mutation replies are oracle inputs (`none`
when the reply lacks the mutation field, matching the optional chaining). -/
def addressesAction (decode : String → String) (method : String)
    (form : Params) (session : Session)
    (createResult : Option AddressMutatePayload)
    (updateResult : Option AddressMutatePayload)
    (deleteResult : Option AddressDeletePayload)
    (defaultResult : Option DefaultAddressPayload) : AddressesOutcome :=
  let addressId := (firstValue "addressId" form).getD ""
  if addressId == "" then
    ⟨.jsonError "You must provide an address id." 400, session, []⟩
  else
    match session with
    | none => ⟨.jsonErrorMap addressId "Unauthorized" 401, session, []⟩
    | some customerAccessToken =>
      let accessToken := customerAccessToken.accessToken
      let defaultAddress : Option Bool :=
        (firstValue "defaultAddress" form).map (fun v => v == "on")
      let address : Params :=
        addressKeys.foldl
          (fun acc key =>
            match firstValue key form with
            | some value => acc ++ [(key, value)]
            | none => acc) []
      if method == "POST" then
        let call := AddressMutation.create accessToken address
        match createResult with
        | none =>
          ⟨.jsonErrorMap addressId
            "Expected customer address to be created, but the id is missing" 400,
           session, [call]⟩
        | some payload =>
          match payload.customerUserErrors.head? with
          | some e => ⟨.jsonErrorMap addressId e.message 400, session, [call]⟩
          | none =>
            match payload.customerAddress with
            | none =>
              ⟨.jsonErrorMap addressId
                "Expected customer address to be created, but the id is missing"
                400, session, [call]⟩
            | some createdAddress =>
              if createdAddress.id == "" then
                ⟨.jsonErrorMap addressId
                  "Expected customer address to be created, but the id is missing"
                  400, session, [call]⟩
              else if defaultAddress == some true then
                let dcall := AddressMutation.setDefault accessToken
                  (decode createdAddress.id)
                match defaultResult with
                | none =>
                  ⟨.okCreated createdAddress defaultAddress, session,
                   [call, dcall]⟩
                | some dp =>
                  match dp.customerUserErrors.head? with
                  | some e =>
                    ⟨.jsonErrorMap addressId e.message 400, session,
                     [call, dcall]⟩
                  | none =>
                    ⟨.okCreated createdAddress defaultAddress, session,
                     [call, dcall]⟩
              else ⟨.okCreated createdAddress defaultAddress, session, [call]⟩
      else if method == "PUT" then
        let call := AddressMutation.update accessToken address (decode addressId)
        let updatedAddress := updateResult.bind (fun p => p.customerAddress)
        match (updateResult.map (fun p => p.customerUserErrors)).getD [] |>.head? with
        | some e => ⟨.jsonErrorMap addressId e.message 400, session, [call]⟩
        | none =>
          if defaultAddress == some true then
            let dcall := AddressMutation.setDefault accessToken (decode addressId)
            match defaultResult with
            | none =>
              ⟨.okUpdated updatedAddress defaultAddress, session, [call, dcall]⟩
            | some dp =>
              match dp.customerUserErrors.head? with
              | some e =>
                ⟨.jsonErrorMap addressId e.message 400, session, [call, dcall]⟩
              | none =>
                ⟨.okUpdated updatedAddress defaultAddress, session, [call, dcall]⟩
          else ⟨.okUpdated updatedAddress defaultAddress, session, [call]⟩
      else if method == "DELETE" then
        let call := AddressMutation.deleteAddr accessToken addressId
        match (deleteResult.map (fun p => p.customerUserErrors)).getD [] |>.head? with
        | some e => ⟨.jsonErrorMap addressId e.message 400, session, [call]⟩
        | none => ⟨.okDeleted addressId, session, [call]⟩
      else ⟨.jsonErrorMap addressId "Method not allowed" 405, session, []⟩

/-! ## Profile action (account.profile route) -/

/-- The `customerUpdate` mutation payload; the updated customer record type
is opaque external data. -/
structure CustomerUpdatePayload (χ : Type) where
  customer : Option χ
  customerAccessToken : Option CustomerAccessToken
  customerUserErrors : List CustomerUserError

/-- A profile-action response.  `jsonErrorObj` models returning the whole
`customerUserErrors[0]` object as the error. -/
inductive ProfileResponse (χ : Type) where
  | jsonError (message : String) (status : Nat)
  | jsonErrorObj (e : CustomerUserError) (status : Nat)
  | ok (customer : Option χ) (setCookie : Option Session)

/-- Outcome of the profile action: the response, the session after the
action, and the `customerUpdate` invocation (access token and
`CustomerUpdateInput` object) when one was made. -/
structure ProfileOutcome (χ : Type) where
  response : ProfileResponse χ
  session : Session
  mutationCall : Option (String × Params)

/-- Embedding of `getPassword` (account.profile route): the three password
fields with JS truthiness, the last matching validation error winning, and
the final `String(password)` turning a `null` into the string `"null"`. -/
def getPassword (form : Params) : Except String String :=
  let currentPassword := firstValue "currentPassword" form
  let newPassword := firstValue "newPassword" form
  let newPasswordConfirm := firstValue "newPasswordConfirm" form
  let truthy : Option String → Bool := fun o => o.getD "" != ""
  let passwordError : Option String := none
  let passwordError :=
    if truthy newPassword && !truthy currentPassword then
      some "Current password is required."
    else passwordError
  let passwordError :=
    if truthy newPassword && newPassword != newPasswordConfirm then
      some "New passwords must match."
    else passwordError
  let passwordError :=
    if truthy newPassword && truthy currentPassword
        && newPassword == currentPassword then
      some "New password must be different than current password."
    else passwordError
  match passwordError with
  | some msg => .error msg
  | none =>
    let password :=
      if truthy currentPassword && truthy newPassword then newPassword
      else currentPassword
    .ok (jsString password)

/-- The form keys the profile action copies into `CustomerUpdateInput`. -/
def validInputKeys : List String :=
  ["firstName", "lastName", "email", "password", "phone"]

/-- Embedding of the profile route action.  The customer-input object is
built from the form entries whose key is among `validInputKeys` and whose
value is non-empty (later entries overwrite, as JS object assignment does);
a truthy `getPassword` result overwrites the password field.  The
`acceptsMarketing` branch of the source loop is unreachable because that key
is not in `validInputKeys`. -/
def profileAction {χ : Type} (method : String) (form : Params)
    (session : Session) (updateResult : Option (CustomerUpdatePayload χ)) :
    ProfileOutcome χ :=
  if method != "PUT" then
    ⟨.jsonError "Method not allowed" 405, session, none⟩
  else
    match session with
    | none => ⟨.jsonError "Unauthorized" 401, session, none⟩
    | some customerAccessToken =>
      match getPassword form with
      | .error msg => ⟨.jsonError msg 400, session, none⟩
      | .ok password =>
        let customer :=
          form.foldl
            (fun acc e =>
              if validInputKeys.contains e.1 then
                if e.2 != "" then setParam e.1 e.2 acc else acc
              else acc) []
        let customer :=
          if password != "" then setParam "password" password customer
          else customer
        let call := some (customerAccessToken.accessToken, customer)
        match updateResult with
        | none => ⟨.ok none (some session), session, call⟩
        | some payload =>
          match payload.customerUserErrors.head? with
          | some e => ⟨.jsonErrorObj e 400, session, call⟩
          | none =>
            let session' :=
              match payload.customerAccessToken with
              | some t => if t.accessToken != "" then some t else session
              | none => session
            ⟨.ok payload.customer (some session'), session', call⟩

/-! ## Helper lemmas -/

theorem foldl_appendParam (k : String) (l : List String) (acc : Params) :
    l.foldl (fun a v => appendParam k v a) acc = acc ++ l.map (fun v => (k, v)) := by
  induction l generalizing acc with
  | nil => simp
  | cons x xs ih => rw [List.foldl_cons, ih]; simp [appendParam]

theorem filter_ne_key_map (k : String) (l : List String) :
    (l.map (fun v => (k, v))).filter (fun e => e.1 != k) = [] := by
  induction l with
  | nil => rfl
  | cons x xs ih => simp [ih]

theorem deleteKey_filter_self (k : String) (ps : Params) :
    (deleteKey k ps).filter (fun e => e.1 != k) = deleteKey k ps := by
  simp [deleteKey, List.filter_filter]

theorem getAllValues_append (k : String) (ps qs : Params) :
    getAllValues k (ps ++ qs) = getAllValues k ps ++ getAllValues k qs := by
  simp [getAllValues, List.filter_append]

theorem setParam_idem (k v : String) (ps : Params) :
    setParam k v (setParam k v ps) = setParam k v ps := by
  induction ps with
  | nil => simp [setParam]
  | cons e rest ih =>
    rcases e with ⟨k', v'⟩
    by_cases h : k' = k
    · subst h
      simp [setParam, List.filter_filter]
    · have hb : (k' == k) = false := by simpa using h
      simp only [setParam, hb, Bool.false_eq_true, if_false, ih]

/-! ## Claim theorems -/

/-- C5: the sort-parameter decoding helper is total: each of the five known
sort values maps to its sort key and reverse flag, and every other value,
the absent parameter included, maps to `RELEVANCE` with `reverse = false`. -/
theorem getSortValuesFromParam_total :
    getSortValuesFromParam (some "price-high-low") = ⟨.PRICE, true⟩ ∧
    getSortValuesFromParam (some "price-low-high") = ⟨.PRICE, false⟩ ∧
    getSortValuesFromParam (some "best-selling") = ⟨.BEST_SELLING, false⟩ ∧
    getSortValuesFromParam (some "newest") = ⟨.CREATED, true⟩ ∧
    getSortValuesFromParam (some "featured") = ⟨.MANUAL, false⟩ ∧
    getSortValuesFromParam none = ⟨.RELEVANCE, false⟩ ∧
    ∀ s : String,
      s ∉ ["price-high-low", "price-low-high", "best-selling", "newest",
           "featured"] →
      getSortValuesFromParam (some s) = ⟨.RELEVANCE, false⟩ := by
  refine ⟨rfl, rfl, rfl, rfl, rfl, rfl, ?_⟩
  intro s hs
  simp only [List.mem_cons, List.not_mem_nil, or_false, not_or] at hs
  obtain ⟨h1, h2, h3, h4, h5⟩ := hs
  simp [getSortValuesFromParam, h1, h2, h3, h4, h5]

/-- C5 witness: an unknown sort value falls through to `RELEVANCE`. -/
theorem getSortValuesFromParam_total_witness :
    getSortValuesFromParam (some "alphabetical") = ⟨.RELEVANCE, false⟩ :=
  getSortValuesFromParam_total.2.2.2.2.2.2 "alphabetical" (by decide)

/-- C9: the applied-filter removal helper preserves, unchanged and in order,
every query-string entry whose key differs from the removed filter's
`urlParam` key; and it is exactly characterized as: for the `variantOption`
key, the key's entries whose value contains the filter's value as a substring
are removed and the surviving values are re-appended at the end, while for
any other key every entry under the key is deleted. -/
theorem getAppliedFilterLink_frame (filter : AppliedFilter) (params : Params) :
    (getAppliedFilterParams filter params).filter
        (fun e => e.1 != filter.urlParam.key)
      = params.filter (fun e => e.1 != filter.urlParam.key) ∧
    getAppliedFilterParams filter params
      = (if filter.urlParam.key = "variantOption" then
          deleteKey filter.urlParam.key params ++
            ((getAllValues "variantOption" params).filter
              (fun v => !(strContains v filter.urlParam.value))).map
              (fun v => (filter.urlParam.key, v))
        else deleteKey filter.urlParam.key params) := by
  rcases filter with ⟨label, ⟨k, v⟩⟩
  by_cases hk : k = "variantOption"
  · subst hk
    constructor
    · simp [getAppliedFilterParams, foldl_appendParam, List.filter_append,
        filter_ne_key_map, deleteKey_filter_self, deleteKey]
    · simp [getAppliedFilterParams, foldl_appendParam]
  · have hb : (k == "variantOption") = false := by simpa using hk
    constructor
    · simp [getAppliedFilterParams, hb, deleteKey_filter_self, deleteKey,
        List.filter_filter]
    · simp [getAppliedFilterParams, hb, hk]

/-- C10: the filter-input encoding helper is idempotent for a LIST
variant-option input (the `name:value` entry is appended only when absent),
string and boolean LIST inputs are `URLSearchParams.set` on their key,
PRICE_RANGE inputs are `set` on `minPrice`/`maxPrice`, and `set` itself
overwrites the existing key, hence is idempotent. -/
theorem filterInputToParams_idem :
    (∀ (key name val : String) (ps : Params),
      filterInputToParams (.list [(key, .variantOpt name val)])
          (filterInputToParams (.list [(key, .variantOpt name val)]) ps)
        = filterInputToParams (.list [(key, .variantOpt name val)]) ps) ∧
    (∀ (key v : String) (ps : Params),
      filterInputToParams (.list [(key, .str v)]) ps = setParam key v ps) ∧
    (∀ (key : String) (b : Bool) (ps : Params),
      filterInputToParams (.list [(key, .boolean b)]) ps
        = setParam key (if b then "true" else "false") ps) ∧
    (∀ (mn mx : String) (ps : Params), mn ≠ "" → mx ≠ "" →
      filterInputToParams (.price ⟨some mn, some mx⟩) ps
        = setParam "maxPrice" mx (setParam "minPrice" mn ps)) ∧
    (∀ (key v : String) (ps : Params),
      setParam key v (setParam key v ps) = setParam key v ps) := by
  refine ⟨?_, ?_, ?_, ?_, setParam_idem⟩
  · intro key name val ps
    simp only [filterInputToParams, List.foldl_cons, List.foldl_nil]
    by_cases hc : (getAllValues "variantOption" ps).contains (name ++ ":" ++ val) = true
    · rw [if_pos hc, if_pos hc]
    · rw [if_neg hc]
      have hc2 : (getAllValues "variantOption"
          (appendParam "variantOption" (name ++ ":" ++ val) ps)).contains
            (name ++ ":" ++ val) = true := by
        simp [appendParam, getAllValues_append, getAllValues]
      rw [if_pos hc2]
  · intro key v ps
    simp [filterInputToParams]
  · intro key b ps
    simp [filterInputToParams]
  · intro mn mx ps hmn hmx
    have h1 : (mn == "") = false := by simpa using hmn
    have h2 : (mx == "") = false := by simpa using hmx
    simp [filterInputToParams, h1, h2]

/-- C10 witness: the price-range conjunct at a concrete input. -/
theorem filterInputToParams_idem_witness :
    filterInputToParams (.price ⟨some "5", some "20"⟩) [("sort", "newest")]
      = setParam "maxPrice" "20" (setParam "minPrice" "5" [("sort", "newest")]) :=
  filterInputToParams_idem.2.2.2.1 "5" "20" [("sort", "newest")]
    (by decide) (by decide)

/-- C1: for every resource-route request where the storefront query returns
no matching resource (`none` for the requested handle or id), the loader
fails the request with an HTTP 404 response — for the collection, product,
blog and order loaders, each embedded from the source. -/
theorem resource_loader_missing_404 :
    (∀ (γ : Type) (parseNum : String → Option Int) (h : String) (sp : Params),
      h ≠ "" →
      collectionLoader (γ := γ) parseNum (some h) sp none
        = .notFound ("Collection " ++ h ++ " not found") 404) ∧
    (∀ (ν : Type) (h : String) (vr : ν) (sp : Params),
      h ≠ "" → productLoader (some h) none vr sp = .notFound) ∧
    (∀ (α : Type) (h : String), h ≠ "" →
      blogLoader (α := α) (some h) none = .notFound "Not found" 404) ∧
    (∀ (ℓ δ ρ μ π : Type) (atob : String → String) (fl : ℓ → List ρ)
      (fd : δ → List (DiscountApplication μ π)) (i : String)
      (tok : CustomerAccessToken) (q : String → Option (OrderNode ℓ δ)),
      i ≠ "" → q (atob i) = none →
      orderLoader atob fl fd (some i) (some tok) q
        = .notFound "Order not found" 404) := by
  refine ⟨?_, ?_, ?_, ?_⟩
  · intro γ parseNum h sp hh
    have hb : (h == "") = false := by simpa using hh
    simp [collectionLoader, hb]
  · intro ν h vr sp hh
    have hb : (h == "") = false := by simpa using hh
    simp [productLoader, hb]
  · intro α h hh
    have hb : (h == "") = false := by simpa using hh
    simp [blogLoader, hb]
  · intro ℓ δ ρ μ π atob fl fd i tok q hi hq
    have hb : (i == "") = false := by simpa using hi
    simp [orderLoader, hb, hq]

/-- C1 witness: each loader at a concrete missing resource. -/
theorem resource_loader_missing_404_witness :
    collectionLoader (γ := Unit) (fun _ => none) (some "summer") [] none
        = .notFound ("Collection " ++ "summer" ++ " not found") 404 ∧
    productLoader (ν := Unit) (some "tee") none () [] = .notFound ∧
    blogLoader (α := Unit) (some "news") none = .notFound "Not found" 404 ∧
    orderLoader (ℓ := Unit) (δ := Unit) (ρ := Unit) (μ := Unit) (π := Unit)
        (fun s => s) (fun _ => []) (fun _ => []) (some "b64id")
        (some ⟨"tokenvalue", "2099-01-01"⟩) (fun _ => none)
      = .notFound "Order not found" 404 :=
  ⟨resource_loader_missing_404.1 Unit (fun _ => none) "summer" [] (by decide),
   resource_loader_missing_404.2.1 Unit "tee" () [] (by decide),
   resource_loader_missing_404.2.2.1 Unit "news" (by decide),
   resource_loader_missing_404.2.2.2 Unit Unit Unit Unit Unit (fun s => s)
     (fun _ => []) (fun _ => []) "b64id" ⟨"tokenvalue", "2099-01-01"⟩
     (fun _ => none) (by decide) rfl⟩

/-- C2: a POST to the login route whose form is missing the email or the
password (or has it empty) yields the 400 JSON error
`Please provide both an email and a password.` with no `Set-Cookie` header,
the login mutation is not invoked, and the session is unchanged. -/
theorem login_invalid_input_400 (form : Params) (session : Session)
    (mutationResult : Option TokenCreatePayload)
    (h : (firstValue "email" form).getD "" = ""
        ∨ (firstValue "password" form).getD "" = "") :
    loginAction "POST" form session mutationResult
      = ⟨.jsonError "Please provide both an email and a password." 400 none,
         session, false⟩ := by
  rcases h with h | h <;> simp [loginAction, h]

/-- C2 witness: a form with only an email field. -/
theorem login_invalid_input_400_witness :
    loginAction "POST" [("email", "a@b.c")] none none
      = ⟨.jsonError "Please provide both an email and a password." 400 none,
         none, false⟩ :=
  login_invalid_input_400 [("email", "a@b.c")] none none (Or.inr (by decide))

/-- C6: a POST to the login route whose mutation reply carries a
customerAccessToken with a non-empty accessToken stores that token in the
session, commits it into the `Set-Cookie` header, and redirects to
`/account`. -/
theorem login_success_redirect (form : Params) (session : Session)
    (payload : TokenCreatePayload) (tok : CustomerAccessToken)
    (he : (firstValue "email" form).getD "" ≠ "")
    (hp : (firstValue "password" form).getD "" ≠ "")
    (htok : payload.customerAccessToken = some tok)
    (hat : tok.accessToken ≠ "") :
    loginAction "POST" form session (some payload)
      = ⟨.redirectTo "/account" (some (some tok)), some tok, true⟩ := by
  simp [loginAction, he, hp, htok, hat]

/-- C6 witness: a successful login at concrete inputs. -/
theorem login_success_redirect_witness :
    loginAction "POST" [("email", "a@b.c"), ("password", "hunter22")] none
        (some ⟨some ⟨"tok123", "2099-01-01"⟩, []⟩)
      = ⟨.redirectTo "/account" (some (some ⟨"tok123", "2099-01-01"⟩)),
         some ⟨"tok123", "2099-01-01"⟩, true⟩ :=
  login_success_redirect [("email", "a@b.c"), ("password", "hunter22")] none
    ⟨some ⟨"tok123", "2099-01-01"⟩, []⟩ ⟨"tok123", "2099-01-01"⟩
    (by decide) (by decide) rfl (by decide)

/-- C4: with no customerAccessToken in the session, the addresses action
(given a non-empty addressId) and the profile action (given a PUT request)
return a 401 error response and invoke no storefront mutation. -/
theorem account_mutation_unauthorized_401 :
    (∀ (decode : String → String) (method : String) (form : Params)
      (cr ur : Option AddressMutatePayload) (dr : Option AddressDeletePayload)
      (dfr : Option DefaultAddressPayload),
      (firstValue "addressId" form).getD "" ≠ "" →
      addressesAction decode method form none cr ur dr dfr
        = ⟨.jsonErrorMap ((firstValue "addressId" form).getD "")
            "Unauthorized" 401, none, []⟩) ∧
    (∀ (χ : Type) (form : Params) (u : Option (CustomerUpdatePayload χ)),
      profileAction "PUT" form none u
        = ⟨.jsonError "Unauthorized" 401, none, none⟩) := by
  constructor
  · intro decode method form cr ur dr dfr haid
    have hb : ((firstValue "addressId" form).getD "" == "") = false := by
      simpa using haid
    simp [addressesAction, hb]
  · intro χ form u
    rfl

/-- C4 witness: concrete unauthorized mutation requests. -/
theorem account_mutation_unauthorized_401_witness :
    addressesAction id "POST" [("addressId", "gid1")] none none none none none
        = ⟨.jsonErrorMap ((firstValue "addressId" [("addressId", "gid1")]).getD "")
            "Unauthorized" 401, none, []⟩ ∧
    profileAction (χ := Unit) "PUT" [] none none
        = ⟨.jsonError "Unauthorized" 401, none, none⟩ :=
  ⟨account_mutation_unauthorized_401.1 id "POST" [("addressId", "gid1")]
      none none none none (by decide),
   account_mutation_unauthorized_401.2 Unit [] none⟩

/-- C3 counterexample: a POST to the password-reset route with valid route
params whose form is missing the passwordConfirm field does NOT get a 400
for invalid input — the customerReset mutation is invoked anyway (and with a
successful reply the action even redirects), refuting the claim. -/
theorem reset_missing_confirm_invokes_mutation :
    (resetAction "POST" (some "123") (some "tok") [("password", "secret123")]
        none (some ⟨some ⟨"at1", "2030-01-01"⟩, []⟩)).mutationInvoked = true
    ∧ (resetAction "POST" (some "123") (some "tok") [("password", "secret123")]
        none (some ⟨some ⟨"at1", "2030-01-01"⟩, []⟩)).response
      = .redirectTo "/account" (some (some ⟨"at1", "2030-01-01"⟩)) :=
  ⟨rfl, rfl⟩

/-- C3 amended: the reset action returns a 400 without invoking the
customerReset mutation only when both password fields are present, non-empty
and different; when either field is missing or empty the validation guard
(`validInputs && password !== passwordConfirm`) is skipped and the mutation
is invoked. -/
theorem reset_validation_amended :
    (∀ (i rt : String) (form : Params) (session : Session)
      (m : Option ResetPayload), i ≠ "" → rt ≠ "" →
      (firstValue "password" form).getD "" ≠ "" →
      (firstValue "passwordConfirm" form).getD "" ≠ "" →
      (firstValue "password" form).getD ""
        ≠ (firstValue "passwordConfirm" form).getD "" →
      resetAction "POST" (some i) (some rt) form session m
        = ⟨.jsonError "Please provide matching passwords" 400 none,
           session, false⟩) ∧
    (∀ (i rt : String) (form : Params) (session : Session)
      (m : Option ResetPayload), i ≠ "" → rt ≠ "" →
      ((firstValue "password" form).getD "" = ""
        ∨ (firstValue "passwordConfirm" form).getD "" = "") →
      (resetAction "POST" (some i) (some rt) form session m).mutationInvoked
        = true) := by
  constructor
  · intro i rt form session m hi hrt hp hpc hne
    simp [resetAction, hi, hrt, hp, hpc, hne]
  · intro i rt form session m hi hrt hv
    rcases m with _ | ⟨cat, errs⟩
    · rcases hv with h | h <;> simp [resetAction, hi, hrt, h]
    · rcases hv with h | h <;>
        cases errs <;> cases cat <;> simp [resetAction, hi, hrt, h]

/-- C3 amended witness: differing passwords get the 400, a missing confirm
field lets the mutation through. -/
theorem reset_validation_amended_witness :
    resetAction "POST" (some "9") (some "rtok")
        [("password", "abcdefgh"), ("passwordConfirm", "ABCDEFGH")] none none
      = ⟨.jsonError "Please provide matching passwords" 400 none, none, false⟩
    ∧ (resetAction "POST" (some "9") (some "rtok") [("password", "abcdefgh")]
        none none).mutationInvoked = true :=
  ⟨reset_validation_amended.1 "9" "rtok"
      [("password", "abcdefgh"), ("passwordConfirm", "ABCDEFGH")] none none
      (by decide) (by decide) (by decide) (by decide) (by decide),
   reset_validation_amended.2 "9" "rtok" [("password", "abcdefgh")] none none
      (by decide) (by decide) (Or.inr (by decide))⟩

/-- C8: the access-token validator reports logged-in exactly when the
session's token has a non-empty accessToken and a non-empty expiresAt that
does not parse to a time earlier than now (an unparseable date is JS `NaN`,
which is not earlier than anything); an expired token is unset from the
session and the removal is committed into a `Set-Cookie` header, with
`isLoggedIn` false. -/
theorem validateCustomerAccessToken_spec
    (parseTime : String → Option Int) (now : Int) (session : Session) :
    ((validateCustomerAccessToken parseTime now session session).isLoggedIn
        = true ↔
      ∃ tok, session = some tok ∧ tok.accessToken ≠ "" ∧ tok.expiresAt ≠ ""
        ∧ timeEarlier (parseTime tok.expiresAt) now = false) ∧
    (∀ tok, session = some tok → tok.accessToken ≠ "" → tok.expiresAt ≠ "" →
      timeEarlier (parseTime tok.expiresAt) now = true →
      validateCustomerAccessToken parseTime now session session
        = ⟨false, some none, none⟩) := by
  constructor
  · rcases session with _ | tok
    · simp [validateCustomerAccessToken]
    · by_cases ha : tok.accessToken = ""
      · simp [validateCustomerAccessToken, ha]
      · by_cases hx : tok.expiresAt = ""
        · have ha' : (tok.accessToken == "") = false := by simpa using ha
          simp [validateCustomerAccessToken, ha', hx]
        · have ha' : (tok.accessToken == "") = false := by simpa using ha
          have hx' : (tok.expiresAt == "") = false := by simpa using hx
          cases he : timeEarlier (parseTime tok.expiresAt) now <;>
            simp [validateCustomerAccessToken, ha', hx', he, ha, hx]
  · intro tok hs ha hx he
    subst hs
    have ha' : (tok.accessToken == "") = false := by simpa using ha
    have hx' : (tok.expiresAt == "") = false := by simpa using hx
    simp [validateCustomerAccessToken, ha', hx', he]

/-- C8 witness: an expired concrete token is unset and committed. -/
theorem validateCustomerAccessToken_spec_witness :
    validateCustomerAccessToken (fun _ => some 0) 1
        (some ⟨"tokenvalue", "1970-01-01"⟩) (some ⟨"tokenvalue", "1970-01-01"⟩)
      = ⟨false, some none, none⟩ :=
  (validateCustomerAccessToken_spec (fun _ => some 0) 1
      (some ⟨"tokenvalue", "1970-01-01"⟩)).2
    ⟨"tokenvalue", "1970-01-01"⟩ rfl (by decide) (by decide) rfl

/-- C7: the root loader awaits the header query but returns the cart and
footer queries as still-pending promises, and the product loader returns the
variants query unawaited while the critical product value is awaited; no
deferred fetch blocks the returned response. -/
theorem deferred_queries :
    (∀ (κ φ η : Type) (parseTime : String → Option Int) (now : Int)
      (session : Session) (psd : String) (c : κ) (f : φ) (hd : η),
      (rootLoader parseTime now session psd c f hd).header = .awaited hd ∧
      (rootLoader parseTime now session psd c f hd).cart = .deferred c ∧
      (rootLoader parseTime now session psd c f hd).footer = .deferred f) ∧
    (∀ (ν : Type) (handle : Option String) (pr : Option Product) (vr : ν)
      (sp : Params) (payload : ProductPayload ν),
      productLoader handle pr vr sp = .ok payload →
      payload.variants = .deferred vr ∧
      ∃ p : Product, payload.product = .awaited p) := by
  constructor
  · intro κ φ η parseTime now session psd c f hd
    exact ⟨rfl, rfl, rfl⟩
  · intro ν handle pr vr sp payload h
    unfold productLoader at h
    repeat' split at h
    all_goals
      first
        | (injection h with h'; subst h'; exact ⟨rfl, _, rfl⟩)
        | exact absurd h (by simp)

/-- C7 witness: the root loader at concrete inputs, and the product loader's
happy path at a concrete default-variant product. -/
theorem deferred_queries_witness :
    (rootLoader (fun _ => none) 0 none "dom" 1 2 3).header
        = Streamed.awaited 3 ∧
    (ProductPayload.variants (ν := Unit)
        ⟨.awaited ⟨"pid1", "tee", [⟨"v1", [⟨"Title", "Default Title"⟩]⟩],
            some ⟨"v1", [⟨"Title", "Default Title"⟩]⟩⟩,
         .deferred ()⟩) = .deferred () :=
  ⟨(deferred_queries.1 Nat Nat Nat (fun _ => none) 0 none "dom" 1 2 3).1,
   (deferred_queries.2 Unit (some "tee")
      (some ⟨"pid1", "tee", [⟨"v1", [⟨"Title", "Default Title"⟩]⟩], none⟩) ()
      []
      ⟨.awaited ⟨"pid1", "tee", [⟨"v1", [⟨"Title", "Default Title"⟩]⟩],
          some ⟨"v1", [⟨"Title", "Default Title"⟩]⟩⟩,
       .deferred ()⟩ rfl).1⟩

end Storefront
